import Mathlib

set_option maxRecDepth 8000

/-!
Shallow embedding of `src/app/[transport]/route.ts` (an MCP server exposing
the tools echo, calculate, convert, format-date and nl-to-sql), together
with theorems checking the natural-language specification against it.

Modelling conventions:
* JavaScript numbers are modelled as unnormalized rationals (`JsNumber`);
  the source's numeric literals are exact decimal fractions, embedded by
  their decimal value.  Division by zero and infinities are modelled
  explicitly where the code can produce them (see `JsVal`); negative zero
  is identified with zero.
* The filesystem (`fs.readdir` / `fs.readFile`) is passed in explicitly:
  the directory listing as an `Except` value and the per-file read as a
  function `String → Except String String` keyed by file name.
* A JavaScript object used as a string-keyed record is modelled as an
  insertion-ordered association list where assigning to an existing key
  overwrites in place (`recordInsert`), matching object semantics for
  non-index keys.
* Property reads such as `conversions[fromUnit]` follow the prototype
  chain: an object literal inherits the `Object.prototype` properties
  (`objectProtoKeys`), all of which are truthy, so caller-supplied unit
  strings naming them pass the handler's truthiness guard.  The behaviour
  of calling such an inherited member on a conversion row is modelled in
  `rowProtoCall`; reads that land on built-in function objects themselves
  (when the outer lookup already left the table) are marked
  `ConvertOutcome.inherited` and no theorem constrains them.
* The code runs in module (strict) mode, so `eval` rejects leading-zero
  numeric literals such as `08`.
-/

/-- JavaScript `String.prototype.endsWith`, as a suffix test on the
character lists. -/
def jsEndsWith (s suffix : String) : Bool :=
  List.isSuffixOf suffix.toList s.toList

/-- JavaScript `String.prototype.replace` with a string pattern replaces only
the first occurrence of the pattern. List-level worker. -/
def replaceFirstList (pat repl : List Char) : List Char → List Char
  | [] => []
  | c :: rest =>
    if List.isPrefixOf pat (c :: rest) then repl ++ List.drop pat.length (c :: rest)
    else c :: replaceFirstList pat repl rest

/-- JavaScript `s.replace(pat, repl)` for string patterns: first occurrence only. -/
def replaceFirst (s pat repl : String) : String :=
  String.mk (replaceFirstList pat.toList repl.toList s.toList)

/-- Assignment `obj[k] = v` on a JavaScript object modelled as an
insertion-ordered association list: an existing key is overwritten in place,
a new key is appended. -/
def recordInsert (m : List (String × String)) (k v : String) : List (String × String) :=
  if m.any (fun e => e.1 = k) then m.map (fun e => if e.1 = k then (k, v) else e)
  else m ++ [(k, v)]

/-- The loop body of `loadDatabaseSchemas` (route.ts lines 22-29): for each
listed file ending in `.sql`, derive the table name with
`file.replace(".sql", "")`, read the file, and store the content under the
table name.  A failing read propagates as an error (the exception escapes
the loop). -/
def readSchemaFiles (readFile : String → Except String String) :
    List String → List (String × String) → Except String (List (String × String))
  | [], acc => Except.ok acc
  | f :: rest, acc =>
    if jsEndsWith f ".sql" then
      match readFile f with
      | Except.error e => Except.error e
      | Except.ok content =>
          readSchemaFiles readFile rest (recordInsert acc (replaceFirst f ".sql" "") content)
    else readSchemaFiles readFile rest acc

/-- `loadDatabaseSchemas` (route.ts lines 16-36): list the schemas directory
and read every `.sql` file into a table-name-to-content mapping.  The whole
loop sits inside one `try`; the `catch` returns the empty mapping, so any
listing or read error discards everything read so far. -/
def loadDatabaseSchemas :
    Except String (List String) → (String → Except String String) → List (String × String)
  | Except.error _, _ => []
  | Except.ok files, readFile =>
    match readSchemaFiles readFile files [] with
    | Except.ok schemas => schemas
    | Except.error _ => []

/-- The claim's key derivation, from the spec's words: the file name with its
extension removed (everything from the last dot onwards is dropped; a name
without a dot is unchanged). -/
def dropExtension (f : String) : String :=
  let r := f.toList.reverse
  if r.contains '.' then String.mk (((r.dropWhile (fun c => c ≠ '.')).drop 1).reverse)
  else f

/-- A JavaScript number, modelled as an unnormalized rational `num / den`.
All operations keep the denominator positive; `JsNumber.wf` is that
invariant.  The source's numeric literals are exact decimal fractions and
are embedded by their decimal value (IEEE-754 rounding of literals and of
intermediate results is not modelled; negative zero is identified with
zero). -/
structure JsNumber where
  num : ℤ
  den : ℤ
deriving DecidableEq, Repr

/-- Well-formedness invariant of `JsNumber`: positive denominator. -/
def JsNumber.wf (q : JsNumber) : Prop := 0 < q.den

/-- The rational value of a `JsNumber`. -/
def JsNumber.toRat (q : JsNumber) : ℚ := (q.num : ℚ) / (q.den : ℚ)

/-- Build a `JsNumber`, normalising the sign into the numerator. -/
def qmk (n d : ℤ) : JsNumber := if d < 0 then ⟨-n, -d⟩ else ⟨n, d⟩

/-- Embed an integer. -/
def qofInt (n : ℤ) : JsNumber := ⟨n, 1⟩

/-- Addition of JavaScript numbers. -/
def qadd (a b : JsNumber) : JsNumber := ⟨a.num * b.den + b.num * a.den, a.den * b.den⟩

/-- Subtraction of JavaScript numbers. -/
def qsub (a b : JsNumber) : JsNumber := ⟨a.num * b.den - b.num * a.den, a.den * b.den⟩

/-- Multiplication of JavaScript numbers. -/
def qmul (a b : JsNumber) : JsNumber := ⟨a.num * b.num, a.den * b.den⟩

/-- Division of JavaScript numbers (callers check for a zero divisor first,
matching the handler-level treatment of division by zero). -/
def qdiv (a b : JsNumber) : JsNumber := qmk (a.num * b.den) (a.den * b.num)

/-- Negation of JavaScript numbers. -/
def qneg (a : JsNumber) : JsNumber := ⟨-a.num, a.den⟩

/-- Decimal digits of the fractional part `r / d` (`0 ≤ r < d`), produced by
repeated multiplication by ten; `fuel` bounds the number of digits and is
always sufficient for terminating expansions. -/
def fracDigitChars : ℕ → ℤ → ℤ → List Char
  | 0, _, _ => []
  | fuel + 1, r, d =>
    if r = 0 then []
    else
      let digit := Int.fdiv (10 * r) d
      Char.ofNat (48 + digit.toNat) :: fracDigitChars fuel (10 * r - digit * d) d

/-- JavaScript number-to-string conversion (template-literal interpolation
`\x7b value \x7d`): sign, integer part, and the terminating decimal expansion of
the fractional part.  Faithful to `Number.prototype.toString` for values
whose JavaScript rendering is a plain (non-exponential) decimal, which
covers every value exercised here. -/
def jsNumToString (q : JsNumber) : String :=
  let sign := if q.num < 0 then "-" else ""
  let n := |q.num|
  let ip := Int.fdiv n q.den
  let r := n - ip * q.den
  if r = 0 then sign ++ toString ip.toNat
  else sign ++ toString ip.toNat ++ "." ++ String.mk (fracDigitChars q.den.natAbs r q.den)

/-- JavaScript `Number.prototype.toFixed(4)` (ECMA-262): with `x = |q|`,
choose the integer `n` with `n / 10^4` closest to `x`, ties towards the
larger `n` (so `n = ⌊x·10^4 + 1/2⌋`), print `n` padded to at least five
digits, insert the decimal point four places from the right, and prepend
the sign. -/
def toFixed4 (q : JsNumber) : String :=
  let sign := if q.num < 0 then "-" else ""
  let r := Int.fdiv (20000 * |q.num| + q.den) (2 * q.den)
  let ds0 := (toString r.toNat).toList
  let ds := if ds0.length ≤ 4 then List.replicate (4 + 1 - ds0.length) '0' ++ ds0 else ds0
  sign ++ String.mk (ds.take (ds.length - 4)) ++ "." ++ String.mk (ds.drop (ds.length - 4))

/-- The fixed conversion table of the `convert` tool (route.ts lines
110-117): a record of records, looked up first by source unit and then by
target unit.  The decimal constants `0.621371`, `1.60934`, `2.20462` and
`0.453592` are embedded as exact decimal fractions. -/
def convTable (fromUnit toUnit : String) : Option (JsNumber → JsNumber) :=
  match fromUnit with
  | "celsius" =>
    match toUnit with
    | "fahrenheit" => some (fun c => qadd (qdiv (qmul c (qofInt 9)) (qofInt 5)) (qofInt 32))
    | _ => none
  | "fahrenheit" =>
    match toUnit with
    | "celsius" => some (fun f => qdiv (qmul (qsub f (qofInt 32)) (qofInt 5)) (qofInt 9))
    | _ => none
  | "kilometers" =>
    match toUnit with
    | "miles" => some (fun km => qmul km (qmk 621371 1000000))
    | _ => none
  | "miles" =>
    match toUnit with
    | "kilometers" => some (fun mi => qmul mi (qmk 160934 100000))
    | _ => none
  | "kilograms" =>
    match toUnit with
    | "pounds" => some (fun kg => qmul kg (qmk 220462 100000))
    | _ => none
  | "pounds" =>
    match toUnit with
    | "kilograms" => some (fun lb => qmul lb (qmk 453592 1000000))
    | _ => none
  | _ => none

/-- The property names own-defined on `Object.prototype` and therefore
readable — through the prototype chain — on the `conversions` object
literal and on each of its row objects.  Every one of them is truthy (a
built-in function, or `Object.prototype` itself for `__proto__`), so a
caller-supplied unit string naming any of them passes the source's
`conversions[fromUnit] && conversions[fromUnit][toUnit]` guard. -/
def objectProtoKeys : List String :=
  ["constructor", "hasOwnProperty", "isPrototypeOf", "propertyIsEnumerable",
    "toLocaleString", "toString", "valueOf", "__proto__", "__defineGetter__",
    "__defineSetter__", "__lookupGetter__", "__lookupSetter__"]

/-- The own keys of the `conversions` object literal (its six rows). -/
def conversionRowKeys : List String :=
  ["celsius", "fahrenheit", "kilometers", "miles", "kilograms", "pounds"]

/-- What `conversions[fromUnit][toUnit](value)` does when `fromUnit` is an
own row of the table and `toUnit` names an inherited `Object.prototype`
member, followed by the handler's `Number(result)` coercion:
`Except.error msg` models a thrown `TypeError` (landing in the handler's
`catch` with the engine's message), `Except.ok none` a call result whose
`Number` coercion is NaN, and `Except.ok (some q)` one coercing to the
number `q`.  Traced against Node/V8: `toString`, `toLocaleString` return
`"[object Object]"` and `valueOf` the row object itself (both coerce to
NaN); the three predicate methods return `false` (coercing to 0);
`constructor` is `Object`, whose call wraps the argument (coercing back to
it); `__lookupGetter__`/`__lookupSetter__` return `undefined` (NaN);
`__proto__` is a non-callable object and `__defineGetter__` /
`__defineSetter__` require a callable second argument, so those three
throw. -/
def rowProtoCall (name : String) (value : JsNumber) : Except String (Option JsNumber) :=
  match name with
  | "toString" => Except.ok none
  | "toLocaleString" => Except.ok none
  | "valueOf" => Except.ok none
  | "hasOwnProperty" => Except.ok (some (qofInt 0))
  | "isPrototypeOf" => Except.ok (some (qofInt 0))
  | "propertyIsEnumerable" => Except.ok (some (qofInt 0))
  | "constructor" => Except.ok (some value)
  | "__proto__" => Except.error "conversions[fromUnit][toUnit] is not a function"
  | "__defineGetter__" => Except.error "Getter must be a function: undefined"
  | "__defineSetter__" => Except.error "Setter must be a function: undefined"
  | "__lookupGetter__" => Except.ok none
  | "__lookupSetter__" => Except.ok none
  | _ => Except.ok none

/-- `Number(result).toFixed(4)` of a call result: `none` models a NaN
coercion, on which `toFixed` returns `"NaN"`. -/
def numberToFixed4 : Option JsNumber → String
  | some q => toFixed4 q
  | none => "NaN"

/-- Outcome of a `convert` invocation.  `content` is a reply the model
computes.  `inherited` marks the invocations whose outer lookup
`conversions[fromUnit]` already left the table through the prototype chain
(`fromUnit ∈ objectProtoKeys`): the inner read then happens on a built-in
function object (or on `Object.prototype` for `__proto__`), whose property
tables and restricted accessors are engine surface this model does not
reproduce; no theorem below constrains these invocations. -/
inductive ConvertOutcome where
  | content (texts : List String)
  | inherited
deriving DecidableEq, Repr

/-- The `convert` tool handler (route.ts lines 108-136): evaluate the
truthiness guard `conversions[fromUnit] && conversions[fromUnit][toUnit]`
with prototype-chain lookup; on an own-table hit, format
`value fromUnit = result toUnit` with the result to four decimal places;
on a falsy guard, report the unsupported pair; when the guard passes
through an inherited `Object.prototype` member of a row, call it
(`rowProtoCall`) — a throw lands in the generic `catch`, any other result
is `Number`-coerced and formatted like a conversion. -/
def convertTool (value : JsNumber) (fromUnit toUnit : String) : ConvertOutcome :=
  match convTable fromUnit toUnit with
  | some fn =>
      ConvertOutcome.content
        [jsNumToString value ++ " " ++ fromUnit ++ " = " ++ toFixed4 (fn value) ++ " " ++ toUnit]
  | none =>
    if fromUnit ∈ conversionRowKeys then
      if toUnit ∈ objectProtoKeys then
        match rowProtoCall toUnit value with
        | Except.error msg => ConvertOutcome.content ["Error during conversion: " ++ msg]
        | Except.ok r =>
            ConvertOutcome.content
              [jsNumToString value ++ " " ++ fromUnit ++ " = " ++ numberToFixed4 r ++ " " ++
                toUnit]
      else
        ConvertOutcome.content
          ["Error: Conversion from " ++ fromUnit ++ " to " ++ toUnit ++ " is not supported."]
    else if fromUnit ∈ objectProtoKeys then ConvertOutcome.inherited
    else
      ConvertOutcome.content
        ["Error: Conversion from " ++ fromUnit ++ " to " ++ toUnit ++ " is not supported."]

example : convertTool (qofInt 0) "celsius" "fahrenheit"
    = ConvertOutcome.content ["0 celsius = 32.0000 fahrenheit"] := by decide
example : convertTool (qofInt 10) "celsius" "kelvin"
    = ConvertOutcome.content ["Error: Conversion from celsius to kelvin is not supported."] := by
  decide
example : convertTool (qofInt 2) "kilometers" "miles"
    = ConvertOutcome.content ["2 kilometers = 1.2427 miles"] := by decide
example : convertTool (qmk 25 10) "celsius" "fahrenheit"
    = ConvertOutcome.content ["2.5 celsius = 36.5000 fahrenheit"] := by decide
example : convertTool (qofInt (-40)) "fahrenheit" "celsius"
    = ConvertOutcome.content ["-40 fahrenheit = -40.0000 celsius"] := by decide
example : convertTool (qofInt 5) "celsius" "toString"
    = ConvertOutcome.content ["5 celsius = NaN toString"] := by decide
example : convertTool (qofInt 5) "celsius" "hasOwnProperty"
    = ConvertOutcome.content ["5 celsius = 0.0000 hasOwnProperty"] := by decide
example : convertTool (qofInt 5) "celsius" "constructor"
    = ConvertOutcome.content ["5 celsius = 5.0000 constructor"] := by decide
example : convertTool (qofInt 5) "valueOf" "call" = ConvertOutcome.inherited := by decide

/-- A JavaScript arithmetic value: a finite number, a signed infinity, or
NaN.  Infinities and NaN arise only from division by zero and from
arithmetic on the resulting values. -/
inductive JsVal where
  | fin (q : JsNumber)
  | inf (pos : Bool)
  | nan
deriving DecidableEq, Repr

/-- JavaScript `+` on numbers. -/
def jsAdd : JsVal → JsVal → JsVal
  | JsVal.fin a, JsVal.fin b => JsVal.fin (qadd a b)
  | JsVal.inf p, JsVal.inf q => if p = q then JsVal.inf p else JsVal.nan
  | JsVal.inf p, JsVal.fin _ => JsVal.inf p
  | JsVal.fin _, JsVal.inf p => JsVal.inf p
  | _, _ => JsVal.nan

/-- JavaScript `-` on numbers. -/
def jsSub : JsVal → JsVal → JsVal
  | JsVal.fin a, JsVal.fin b => JsVal.fin (qsub a b)
  | JsVal.inf p, JsVal.inf q => if p = q then JsVal.nan else JsVal.inf p
  | JsVal.inf p, JsVal.fin _ => JsVal.inf p
  | JsVal.fin _, JsVal.inf p => JsVal.inf (!p)
  | _, _ => JsVal.nan

/-- JavaScript `*` on numbers (zero times infinity is NaN). -/
def jsMul : JsVal → JsVal → JsVal
  | JsVal.fin a, JsVal.fin b => JsVal.fin (qmul a b)
  | JsVal.inf p, JsVal.inf q => JsVal.inf (p = q)
  | JsVal.inf p, JsVal.fin a =>
      if a.num = 0 then JsVal.nan else if 0 < a.num then JsVal.inf p else JsVal.inf (!p)
  | JsVal.fin a, JsVal.inf p =>
      if a.num = 0 then JsVal.nan else if 0 < a.num then JsVal.inf p else JsVal.inf (!p)
  | _, _ => JsVal.nan

/-- JavaScript `/` on numbers: division by zero gives a signed infinity
(`0/0` gives NaN), matching IEEE-754 semantics on the values reachable
here. -/
def jsDiv : JsVal → JsVal → JsVal
  | JsVal.fin a, JsVal.fin b =>
      if b.num = 0 then
        if a.num = 0 then JsVal.nan else JsVal.inf (0 < a.num)
      else JsVal.fin (qdiv a b)
  | JsVal.fin _, JsVal.inf _ => JsVal.fin (qofInt 0)
  | JsVal.inf p, JsVal.fin b =>
      if b.num = 0 then JsVal.inf p else if 0 < b.num then JsVal.inf p else JsVal.inf (!p)
  | _, _ => JsVal.nan

/-- JavaScript unary `-` on numbers. -/
def jsNegVal : JsVal → JsVal
  | JsVal.fin a => JsVal.fin (qneg a)
  | JsVal.inf p => JsVal.inf (!p)
  | JsVal.nan => JsVal.nan

/-- Whether a `JsNumber` is an integer (exact divisibility; the
denominators produced by the evaluator are positive). -/
def qIsInt (q : JsNumber) : Bool := q.num % q.den = 0

/-- The integer value of an integral `JsNumber`. -/
def qToInt (q : JsNumber) : ℤ := Int.fdiv q.num q.den

/-- An integral power of a finite number: exact rational exponentiation,
with `0` raised to a negative power giving positive infinity. -/
def qpowInt (b : JsNumber) (k : ℤ) : JsVal :=
  if 0 ≤ k then JsVal.fin ⟨b.num ^ k.toNat, b.den ^ k.toNat⟩
  else if b.num = 0 then JsVal.inf true
  else JsVal.fin (qmk (b.den ^ (-k).toNat) (b.num ^ (-k).toNat))

/-- JavaScript `**` (ECMA-262 Number::exponentiate): a zero exponent gives
1 for every base (NaN included); otherwise NaN propagates; infinite bases
and exponents follow the magnitude rules; a finite base with an integral
exponent is exact rational exponentiation; a negative finite base with a
non-integral exponent is NaN.  For a positive finite base and a
non-integral exponent the true value is irrational in general and lies
outside this rational model — NaN stands in for it; no settled claim
depends on these values, only on the fact that such expressions evaluate
without throwing. -/
def jsPow : JsVal → JsVal → JsVal
  | _, JsVal.nan => JsVal.nan
  | b, JsVal.inf pos =>
    match b with
    | JsVal.nan => JsVal.nan
    | JsVal.inf _ => if pos then JsVal.inf true else JsVal.fin (qofInt 0)
    | JsVal.fin p =>
      if |p.num| = |p.den| then JsVal.nan
      else if |p.den| < |p.num| then
        (if pos then JsVal.inf true else JsVal.fin (qofInt 0))
      else
        (if pos then JsVal.fin (qofInt 0) else JsVal.inf true)
  | b, JsVal.fin q =>
    if q.num = 0 then JsVal.fin (qofInt 1)
    else
      match b with
      | JsVal.nan => JsVal.nan
      | JsVal.inf true => if q.num < 0 then JsVal.fin (qofInt 0) else JsVal.inf true
      | JsVal.inf false =>
        if q.num < 0 then JsVal.fin (qofInt 0)
        else if qIsInt q && qToInt q % 2 ≠ 0 then JsVal.inf false
        else JsVal.inf true
      | JsVal.fin p =>
        if p.num = 0 then
          (if q.num < 0 then JsVal.inf true else JsVal.fin (qofInt 0))
        else if qIsInt q then qpowInt p (qToInt q)
        else JsVal.nan

/-- String interpolation of an arithmetic value. -/
def renderJsVal : JsVal → String
  | JsVal.fin q => jsNumToString q
  | JsVal.inf true => "Infinity"
  | JsVal.inf false => "-Infinity"
  | JsVal.nan => "NaN"

/-- Tokens of the arithmetic fragment reachable from the sanitized character
set.  JavaScript lexes greedily, so `++`, `--` and `**` are single tokens;
the first two can never be applied to the literals and parenthesised
expressions available here and always lead to an evaluation error, while
`**` is exponentiation. -/
inductive Tok where
  | num (q : JsNumber)
  | plus
  | minus
  | star
  | slash
  | lparen
  | rparen
  | plusplus
  | minusminus
  | starstar
deriving DecidableEq, Repr

/-- Decimal digit test. -/
def isDigitChar (c : Char) : Bool := decide ('0' ≤ c) && decide (c ≤ '9')

/-- Value of a digit string. -/
def digitsToNat (ds : List Char) : ℕ := ds.foldl (fun a c => 10 * a + (c.toNat - 48)) 0

/-- Head-digit test, used to reject strict-mode-forbidden leading-zero
literals. -/
def headIsDigit : List Char → Bool
  | c :: _ => isDigitChar c
  | [] => false

/-- Skip to the end of a `/* ... */` block comment: the remaining input
after the first `*/`, or `none` when the comment is unterminated (a
`SyntaxError` in JavaScript). -/
def skipBlockComment : List Char → Option (List Char)
  | [] => none
  | '*' :: '/' :: rest => some rest
  | _ :: rest => skipBlockComment rest

/-- Lexer for the arithmetic fragment: numeric literals are
`digits [. digits?]` or `. digits`, lexed greedily; a leading-zero integer
part (`08`, `00`) is rejected, as strict-mode `eval` does; operator
characters pair up greedily into `++`, `--` and `**`; `//` starts a line
comment running to the end of the sanitized string (no line terminator
survives sanitization) and `/* ... */` a block comment, unterminated block
comments failing.  A bare `.` (and any character outside the sanitized
set) fails.  `fuel` bounds the number of steps and is sufficient whenever
it exceeds the input length. -/
def lexTokens : ℕ → List Char → Option (List Tok)
  | 0, _ => none
  | _, [] => some []
  | fuel + 1, c :: cs =>
    if isDigitChar c then
      if c = '0' && headIsDigit cs then none else
      let ints := (c :: cs).takeWhile isDigitChar
      let rest := (c :: cs).dropWhile isDigitChar
      match rest with
      | '.' :: rest2 =>
        let frs := rest2.takeWhile isDigitChar
        let rest3 := rest2.dropWhile isDigitChar
        let v : JsNumber :=
          ⟨((digitsToNat ints * 10 ^ frs.length + digitsToNat frs : ℕ) : ℤ),
           ((10 ^ frs.length : ℕ) : ℤ)⟩
        do
          let ts ← lexTokens fuel rest3
          pure (Tok.num v :: ts)
      | _ =>
        do
          let ts ← lexTokens fuel rest
          pure (Tok.num (qofInt ((digitsToNat ints : ℕ) : ℤ)) :: ts)
    else if c = '.' then
      match cs with
      | c2 :: _ =>
        if isDigitChar c2 then
          let frs := cs.takeWhile isDigitChar
          let rest3 := cs.dropWhile isDigitChar
          let v : JsNumber := ⟨((digitsToNat frs : ℕ) : ℤ), ((10 ^ frs.length : ℕ) : ℤ)⟩
          do
            let ts ← lexTokens fuel rest3
            pure (Tok.num v :: ts)
        else none
      | [] => none
    else if c = '+' then
      match cs with
      | '+' :: cs2 => do
          let ts ← lexTokens fuel cs2
          pure (Tok.plusplus :: ts)
      | _ => do
          let ts ← lexTokens fuel cs
          pure (Tok.plus :: ts)
    else if c = '-' then
      match cs with
      | '-' :: cs2 => do
          let ts ← lexTokens fuel cs2
          pure (Tok.minusminus :: ts)
      | _ => do
          let ts ← lexTokens fuel cs
          pure (Tok.minus :: ts)
    else if c = '*' then
      match cs with
      | '*' :: cs2 => do
          let ts ← lexTokens fuel cs2
          pure (Tok.starstar :: ts)
      | _ => do
          let ts ← lexTokens fuel cs
          pure (Tok.star :: ts)
    else if c = '/' then
      match cs with
      | '/' :: _ => some []
      | '*' :: cs2 =>
        (match skipBlockComment cs2 with
        | none => none
        | some rest => lexTokens fuel rest)
      | _ => do
        let ts ← lexTokens fuel cs
        pure (Tok.slash :: ts)
    else if c = '(' then do
      let ts ← lexTokens fuel cs
      pure (Tok.lparen :: ts)
    else if c = ')' then do
      let ts ← lexTokens fuel cs
      pure (Tok.rparen :: ts)
    else none

mutual

/-- Additive level: `mul (('+' | '-') mul)*`. -/
def parseAddExpr : ℕ → List Tok → Option (JsVal × List Tok)
  | 0, _ => none
  | fuel + 1, ts => do
    let (v, rest) ← parseMulExpr fuel ts
    parseAddTail fuel v rest

/-- Left-associated tail of the additive level. -/
def parseAddTail : ℕ → JsVal → List Tok → Option (JsVal × List Tok)
  | 0, _, _ => none
  | fuel + 1, v, Tok.plus :: rest => do
    let (w, rest2) ← parseMulExpr fuel rest
    parseAddTail fuel (jsAdd v w) rest2
  | fuel + 1, v, Tok.minus :: rest => do
    let (w, rest2) ← parseMulExpr fuel rest
    parseAddTail fuel (jsSub v w) rest2
  | _ + 1, v, ts => some (v, ts)

/-- Multiplicative level: `expo (('*' | '/') expo)*`. -/
def parseMulExpr : ℕ → List Tok → Option (JsVal × List Tok)
  | 0, _ => none
  | fuel + 1, ts => do
    let (v, rest) ← parseExpo fuel ts
    parseMulTail fuel v rest

/-- Left-associated tail of the multiplicative level. -/
def parseMulTail : ℕ → JsVal → List Tok → Option (JsVal × List Tok)
  | 0, _, _ => none
  | fuel + 1, v, Tok.star :: rest => do
    let (w, rest2) ← parseExpo fuel rest
    parseMulTail fuel (jsMul v w) rest2
  | fuel + 1, v, Tok.slash :: rest => do
    let (w, rest2) ← parseExpo fuel rest
    parseMulTail fuel (jsDiv v w) rest2
  | _ + 1, v, ts => some (v, ts)

/-- Exponentiation level (ES2016 `ExponentiationExpression`): either a
unary expression — whose unparenthesised form must not be the base of `**`,
so after the unary branch a following `**` is left unconsumed and turns
into a parse error, exactly as `-2**2` is a `SyntaxError` in JavaScript —
or a primary followed by a right-associated `**` chain (whose right operand
may again be unary, as in `2**-1`). -/
def parseExpo : ℕ → List Tok → Option (JsVal × List Tok)
  | 0, _ => none
  | fuel + 1, ts =>
    match ts with
    | Tok.plus :: _ => parseUnary fuel ts
    | Tok.minus :: _ => parseUnary fuel ts
    | _ => do
      let (v, rest) ← parsePrimary fuel ts
      match rest with
      | Tok.starstar :: rest2 => do
        let (w, rest3) ← parseExpo fuel rest2
        pure (jsPow v w, rest3)
      | _ => pure (v, rest)

/-- Unary level: `('+' | '-')* primary`; unary plus is the identity on
numbers. -/
def parseUnary : ℕ → List Tok → Option (JsVal × List Tok)
  | 0, _ => none
  | fuel + 1, Tok.plus :: rest => parseUnary fuel rest
  | fuel + 1, Tok.minus :: rest => do
    let (v, rest2) ← parseUnary fuel rest
    pure (jsNegVal v, rest2)
  | fuel + 1, ts => parsePrimary fuel ts

/-- Primary level: a numeric literal or a parenthesised expression. -/
def parsePrimary : ℕ → List Tok → Option (JsVal × List Tok)
  | 0, _ => none
  | _ + 1, Tok.num q :: rest => some (JsVal.fin q, rest)
  | fuel + 1, Tok.lparen :: rest => do
    let (v, rest2) ← parseAddExpr fuel rest
    match rest2 with
    | Tok.rparen :: rest3 => some (v, rest3)
    | _ => none
  | _, _ => none

end

/-- Parse and evaluate a whole token list; trailing tokens are an error
(this also covers the runtime type errors of forms like `1(2)`, which the
handler's `catch` turns into the same text error). -/
def evalTokens (ts : List Tok) : Option JsVal :=
  match parseAddExpr (10 * (ts.length + 1)) ts with
  | some (v, []) => some v
  | _ => none

/-- Outcome of a successful `eval`: the empty program yields `undefined`,
a nonempty arithmetic expression yields its value. -/
inductive EvalOut where
  | undef
  | val (v : JsVal)
deriving DecidableEq, Repr

/-- JavaScript `eval` restricted to the sanitized character set: the empty
string is the empty program and evaluates to `undefined`; otherwise the
string is lexed (with `//` and `/* */` comments and `**` exponentiation)
and parsed as an arithmetic expression; `none` models a thrown exception.
The one lexical form reachable through the sanitized set that this model
does not reproduce is the regular-expression literal — a `/` where an
expression is expected; the theorems below therefore restrict themselves
to inputs whose every `/` directly follows a digit, a dot or a closing
parenthesis (`slashesAreDivision`). -/
def jsEvalArith (s : String) : Option EvalOut :=
  if s.toList = [] then some EvalOut.undef
  else
    match lexTokens (s.toList.length + 1) s.toList with
    | none => none
    | some ts =>
      match evalTokens ts with
      | some v => some (EvalOut.val v)
      | none => none

/-- Rendering of an `eval` outcome under template-literal interpolation. -/
def renderEvalOut : EvalOut → String
  | EvalOut.undef => "undefined"
  | EvalOut.val v => renderJsVal v

/-- The character class kept by the sanitizing regex
`replace(/[^-()*+\x2f0-9.]/g, "")` of the `calculate` handler (route.ts
line 87). -/
def allowedChar (c : Char) : Bool :=
  c = '-' || c = '(' || c = ')' || c = '*' || c = '+' || c = '/' ||
    (decide ('0' ≤ c) && decide (c ≤ '9')) || c = '.'

/-- The sanitizing pass of the `calculate` handler: every character outside
the allowed set is removed. -/
def sanitize (s : String) : String := String.mk (s.toList.filter allowedChar)

/-- Worker for `slashesAreDivision`: every `/` must directly follow a
digit, a dot or a closing parenthesis. -/
def slashOkFrom : Char → List Char → Bool
  | _, [] => true
  | prev, c :: rest =>
    if c = '/' then (isDigitChar prev || prev = '.' || prev = ')') && slashOkFrom c rest
    else slashOkFrom c rest

/-- Conservative syntactic guard: every `/` in the string directly follows
a digit, a dot or a closing parenthesis, so it can only be a division
operator — never the opening of a regular-expression literal (nor of a
comment, since a second `/` would follow a `/`).  On such strings the
evaluator model agrees with JavaScript `eval` about which inputs throw. -/
def slashesAreDivision : List Char → Bool
  | [] => true
  | c :: rest => if c = '/' then false else slashOkFrom c rest

/-- The `calculate` tool handler (route.ts lines 84-96): sanitize, `eval`,
and render `Result: ...`; a thrown evaluation error is caught and reported
as a text error quoting the original input. -/
def calculate (expression : String) : List String :=
  match jsEvalArith (sanitize expression) with
  | some out => ["Result: " ++ renderEvalOut out]
  | none => ["Error: Could not evaluate expression \x27" ++ expression ++ "\x27"]

/-- Syntactic validity of a string as an arithmetic expression of the
fragment: it lexes and parses (hence evaluates) as a complete expression. -/
def isValidArithExpr (s : String) : Bool :=
  match lexTokens (s.toList.length + 1) s.toList with
  | none => false
  | some ts => (evalTokens ts).isSome

example : calculate "2+2" = ["Result: 4"] := by decide
example : calculate "2+3*4" = ["Result: 14"] := by decide
example : calculate "(2+3)*4" = ["Result: 20"] := by decide
example : sanitize "DROP TABLE x;1+1" = "1+1" := by decide
example : calculate "DROP TABLE x;1+1" = ["Result: 2"] := by decide
example : calculate "abc" = ["Result: undefined"] := by decide
example : calculate "1/0" = ["Result: Infinity"] := by decide
example : calculate "10/4" = ["Result: 2.5"] := by decide
example : calculate "1+" = ["Error: Could not evaluate expression \x271+\x27"] := by decide
example : calculate "2-3" = ["Result: -1"] := by decide
example : calculate "-(2+3)/2" = ["Result: -2.5"] := by decide
example : isValidArithExpr "" = false := by decide
example : calculate "2**3" = ["Result: 8"] := by decide
example : calculate "2**3**2" = ["Result: 512"] := by decide
example : calculate "(-2)**2" = ["Result: 4"] := by decide
example : calculate "2**-1" = ["Result: 0.5"] := by decide
example : calculate "-2**2" = ["Error: Could not evaluate expression \x27-2**2\x27"] := by decide
example : calculate "1//2" = ["Result: 1"] := by decide
example : calculate "1/*2*/" = ["Result: 1"] := by decide
example : calculate "1/*2" = ["Error: Could not evaluate expression \x271/*2\x27"] := by decide
example : calculate "08" = ["Error: Could not evaluate expression \x2708\x27"] := by decide
example : calculate "0.5+0.25" = ["Result: 0.75"] := by decide
example : slashesAreDivision "6/2".toList = true := by decide
example : slashesAreDivision "/5/".toList = false := by decide

/-- JavaScript `String.prototype.replace` with a global regexp of a fixed
word (`/YYYY/g` etc.): every occurrence is replaced, scanning resumes after
the replacement.  List-level worker with step fuel (one character is
consumed per step, so fuel equal to the length suffices; the empty-pattern
guard only keeps the fuel argument honest, every pattern used is
nonempty). -/
def replaceAllAux (pat repl : List Char) : ℕ → List Char → List Char
  | 0, l => l
  | _ + 1, [] => []
  | fuel + 1, c :: rest =>
    if pat.isPrefixOf (c :: rest) && !pat.isEmpty then
      repl ++ replaceAllAux pat repl fuel (List.drop pat.length (c :: rest))
    else c :: replaceAllAux pat repl fuel rest

/-- JavaScript `s.replace(/pat/g, repl)` for a fixed word `pat`. -/
def jsReplaceAll (s pat repl : String) : String :=
  String.mk (replaceAllAux pat.toList repl.toList s.toList.length s.toList)

/-- JavaScript `String.prototype.padStart(n, c)`. -/
def jsPadStart (s : String) (n : ℕ) (c : Char) : String :=
  if n ≤ s.length then s else String.mk (List.replicate (n - s.length) c) ++ s

/-- The observations the date code makes of a valid `Date` object: the
local-time component getters used by `formatDate` (`month0` is the 0-based
`getMonth`) and the `toISOString` rendering. -/
structure DateParts where
  year : ℤ
  month0 : ℤ
  day : ℤ
  hours : ℤ
  minutes : ℤ
  seconds : ℤ
  iso : String
deriving DecidableEq, Repr

/-- A `Date` value: `none` models an Invalid Date (time value NaN), which
`new Date(s)` returns for an unparsable date string instead of throwing. -/
abbrev JsDate := Option DateParts

/-- A numeric getter rendered with `toString`: on an Invalid Date every
getter returns NaN and `NaN.toString()` is `"NaN"`. -/
def dateNumStr (d : JsDate) (f : DateParts → ℤ) : String :=
  match d with
  | some p => toString (f p)
  | none => "NaN"

/-- The `formatDate` helper (route.ts lines 50-65): stringify the six
components, zero-pad all but the year to two characters, and substitute the
tokens `YYYY`, `MM`, `DD`, `HH`, `mm`, `ss` globally in that order.  Total:
it never throws, even on an Invalid Date, where every component string is
`"NaN"` (and `"NaN".padStart(2, "0")` is `"NaN"`). -/
def formatDate (date : JsDate) (format : String) : String :=
  let year := dateNumStr date (fun p => p.year)
  let month := jsPadStart (dateNumStr date (fun p => p.month0 + 1)) 2 '0'
  let day := jsPadStart (dateNumStr date (fun p => p.day)) 2 '0'
  let hours := jsPadStart (dateNumStr date (fun p => p.hours)) 2 '0'
  let minutes := jsPadStart (dateNumStr date (fun p => p.minutes)) 2 '0'
  let seconds := jsPadStart (dateNumStr date (fun p => p.seconds)) 2 '0'
  jsReplaceAll (jsReplaceAll (jsReplaceAll (jsReplaceAll (jsReplaceAll
    (jsReplaceAll format "YYYY" year) "MM" month) "DD" day) "HH" hours) "mm" minutes)
    "ss" seconds

/-- JavaScript `Date.prototype.toISOString`: returns the stored rendering on
a valid date and throws `RangeError: Invalid time value` on an Invalid
Date. -/
def toISOString (d : JsDate) : Except String String :=
  match d with
  | some p => Except.ok p.iso
  | none => Except.error "Invalid time value"

/-- The `format-date` tool handler (route.ts lines 147-160), taking the
already-constructed `Date` value (`new Date(date)` parsing is the
runtime's; an unparsable string gives `none`; an absent or empty `date`
argument gives the current — valid — date).  With a format pattern the
handler returns `formatDate`'s output, which cannot throw; without one it
calls `toISOString`, whose throw on an Invalid Date is caught and reported
as a text error. -/
def formatDateTool (inputDate : JsDate) (format : Option String) : List String :=
  match format with
  | some f => [formatDate inputDate f]
  | none =>
    match toISOString inputDate with
    | Except.ok s => [s]
    | Except.error msg => ["Error formatting date: " ++ msg]

example : formatDate none "YYYY-MM-DD" = "NaN-NaN-NaN" := by decide
example : formatDateTool none (some "YYYY-MM-DD") = ["NaN-NaN-NaN"] := by decide
example : formatDateTool none none = ["Error formatting date: Invalid time value"] := by decide
example :
    formatDateTool (some ⟨2024, 0, 15, 10, 30, 0, "2024-01-15T10:30:00.000Z"⟩)
      (some "YYYY-MM-DD") = ["2024-01-15"] := by decide
example :
    formatDateTool (some ⟨2024, 0, 15, 10, 30, 0, "2024-01-15T10:30:00.000Z"⟩)
      (some "YYYY-MM-DD HH:mm:ss") = ["2024-01-15 10:30:00"] := by decide

/-- The fixed preamble of the nl-to-sql prompt (route.ts lines 194-195). -/
def promptPreamble : String :=
  "You are a SQL expert that converts natural language queries to precise SQL. " ++
    "Based on the following database schema:\n\n"

/-- One schema block of the prompt (route.ts line 199). -/
def schemaBlock (e : String × String) : String :=
  "Table: " ++ e.1 ++ "\n" ++ e.2 ++ "\n\n"

/-- The fixed closing instruction of the prompt (route.ts line 204). -/
def promptInstruction : String :=
  "Respond only with the SQL query, no explanation or other text."

/-- Prompt assembly of the nl-to-sql handler (route.ts lines 193-204):
start from the preamble and append one block per schema entry with
`Object.entries(...).forEach` (modelled as a fold over the mapping in
iteration order), then the quoted query line, then the closing
instruction. -/
def assemblePrompt (databaseSchemas : List (String × String)) (query : String) : String :=
  (databaseSchemas.foldl (fun acc e => acc ++ schemaBlock e) promptPreamble) ++
    ("Convert this natural language query to valid SQL:\n\"" ++ query ++ "\"\n\n") ++
    promptInstruction

/-- Concatenation of the per-table blocks, one per schema entry, in
iteration order. -/
def concatBlocks : List (String × String) → String
  | [] => ""
  | e :: rest => schemaBlock e ++ concatBlocks rest

/-- The prompt shape as the specification words it: preamble, then the
concatenation of the per-table blocks in iteration order, then the quoted
query line, then the closing instruction. -/
def promptSpecShape (databaseSchemas : List (String × String)) (query : String) : String :=
  promptPreamble ++ concatBlocks databaseSchemas ++
    ("Convert this natural language query to valid SQL:\n\"" ++ query ++ "\"\n\n") ++
    promptInstruction

/-- Error text for a missing API key (route.ts line 181). -/
def geminiKeyErrorText : String :=
  "Error: GEMINI_API_KEY is not set in environment variables. " ++
    "The nl-to-sql tool cannot function without it."

/-- Error text for an empty schema mapping (route.ts line 187). -/
def schemasErrorText : String :=
  "Error: Database schemas not loaded. " ++
    "Please ensure SQL schema files exist in the app/schemas directory."

/-- Outcome of the nl-to-sql handler up to the remote call: either an
immediate reply, or an invocation of the completion client with a model
identifier and an assembled prompt. -/
inductive NlOutcome where
  | reply (content : List String)
  | callsModel (modelId : String) (prompt : String)
deriving DecidableEq, Repr

/-- The nl-to-sql handler's guard-and-dispatch logic (route.ts lines
177-207).  `GEMINI_API_KEY` is `process.env.GEMINI_API_KEY || ""`, so a
missing credential is the empty string and the `!GEMINI_API_KEY` guard is
an emptiness test.  The schema guard tests `Object.keys(...).length === 0`.
Only when both guards pass is the completion client reached, with the model
identifier `gemini-2.0-flash` and the assembled prompt. -/
def nlToSqlTool (geminiApiKey : String) (databaseSchemas : List (String × String))
    (query : String) : NlOutcome :=
  if geminiApiKey = "" then NlOutcome.reply [geminiKeyErrorText]
  else if databaseSchemas.length = 0 then NlOutcome.reply [schemasErrorText]
  else NlOutcome.callsModel "gemini-2.0-flash" (assemblePrompt databaseSchemas query)

example : nlToSqlTool "" [("t", "d")] "q" = NlOutcome.reply [geminiKeyErrorText] := by decide
example : nlToSqlTool "key" [] "q" = NlOutcome.reply [schemasErrorText] := by decide
example :
    assemblePrompt [("departments", "CREATE TABLE departments;")] "list departments"
      = "You are a SQL expert that converts natural language queries to precise SQL. " ++
        "Based on the following database schema:\n\n" ++
        "Table: departments\nCREATE TABLE departments;\n\n" ++
        "Convert this natural language query to valid SQL:\n\"list departments\"\n\n" ++
        "Respond only with the SQL query, no explanation or other text." := by decide

example : dropExtension "departments.sql" = "departments" := by decide
example : dropExtension "x.sqly.sql" = "x.sqly" := by decide
example : replaceFirst "x.sqly.sql" ".sql" "" = "xy.sql" := by decide
example : replaceFirst "departments.sql" ".sql" "" = "departments" := by decide
example :
    loadDatabaseSchemas (Except.ok ["a.sql", "b.sql"])
      (fun f => if f = "a.sql" then Except.ok "A" else Except.error "boom") = [] := by decide
example :
    loadDatabaseSchemas (Except.ok ["a.sql", "readme.md", "b.sql"])
      (fun f => if f = "a.sql" then Except.ok "A" else Except.ok "B")
      = [("a", "A"), ("b", "B")] := by decide

/-! ## Checked properties -/

/-- Appending blocks by a left fold equals the initial string followed by
the concatenation of the blocks. -/
theorem foldl_schemaBlock_eq (l : List (String × String)) (init : String) :
    l.foldl (fun acc e => acc ++ schemaBlock e) init = init ++ concatBlocks l := by
  induction l generalizing init with
  | nil => simp [concatBlocks]
  | cons e rest ih => simp [concatBlocks, List.foldl, ih, String.append_assoc]

/-- C1: for every schema mapping and every query string, the prompt
assembled by the nl-to-sql handler equals the fixed preamble, followed by
one `Table: name\ndefinition\n\n` block per schema entry in iteration
order, followed by the quoted-query line, followed by the fixed
respond-with-SQL-only instruction. -/
theorem c1_prompt_assembly :
    (∀ (schemas : List (String × String)) (query : String),
      assemblePrompt schemas query = promptSpecShape schemas query) ∧
    (∀ (key : String) (schemas : List (String × String)) (query : String),
      key ≠ "" → schemas ≠ [] →
        nlToSqlTool key schemas query
          = NlOutcome.callsModel "gemini-2.0-flash" (promptSpecShape schemas query)) := by
  have hmain : ∀ (schemas : List (String × String)) (query : String),
      assemblePrompt schemas query = promptSpecShape schemas query := by
    intro schemas query
    unfold assemblePrompt promptSpecShape
    rw [foldl_schemaBlock_eq]
  refine ⟨hmain, ?_⟩
  intro key schemas query hk hs
  unfold nlToSqlTool
  rw [if_neg hk, if_neg (fun h => hs (List.length_eq_zero.mp h)), hmain]

/-- Witness for C1 at a concrete key, schema mapping and query. -/
theorem c1_prompt_assembly_witness :
    nlToSqlTool "k" [("departments", "CREATE TABLE departments;")] "list departments"
      = NlOutcome.callsModel "gemini-2.0-flash"
          (promptSpecShape [("departments", "CREATE TABLE departments;")] "list departments") :=
  c1_prompt_assembly.2 "k" [("departments", "CREATE TABLE departments;")] "list departments"
    (by decide) (by decide)

/-- C2: an unconfigured credential or an empty schema mapping makes the
nl-to-sql handler reply with one of the two fixed error texts without
reaching the completion client; the client is reached exactly when a
credential is present and at least one schema is loaded. -/
theorem c2_guards :
    ∀ (key : String) (schemas : List (String × String)) (query : String),
      ((key = "" ∨ schemas = []) →
        (nlToSqlTool key schemas query = NlOutcome.reply [geminiKeyErrorText] ∨
          nlToSqlTool key schemas query = NlOutcome.reply [schemasErrorText]) ∧
        ∀ m p, nlToSqlTool key schemas query ≠ NlOutcome.callsModel m p) ∧
      (key ≠ "" → schemas ≠ [] →
        nlToSqlTool key schemas query
          = NlOutcome.callsModel "gemini-2.0-flash" (assemblePrompt schemas query)) := by
  intro key schemas query
  constructor
  · intro h
    by_cases hk : key = ""
    · constructor
      · exact Or.inl (by unfold nlToSqlTool; rw [if_pos hk])
      · intro m p hcall
        unfold nlToSqlTool at hcall
        rw [if_pos hk] at hcall
        exact NlOutcome.noConfusion hcall
    · have hs : schemas = [] := h.resolve_left hk
      have hlen : schemas.length = 0 := by rw [hs]; rfl
      constructor
      · exact Or.inr (by unfold nlToSqlTool; rw [if_neg hk, if_pos hlen])
      · intro m p hcall
        unfold nlToSqlTool at hcall
        rw [if_neg hk, if_pos hlen] at hcall
        exact NlOutcome.noConfusion hcall
  · intro hk hs
    unfold nlToSqlTool
    rw [if_neg hk, if_neg (fun h => hs (List.length_eq_zero.mp h))]

/-- Witness for C2: both guards firing at concrete inputs, and the client
reached when both checks pass. -/
theorem c2_guards_witness :
    (nlToSqlTool "" [("t", "d")] "q" = NlOutcome.reply [geminiKeyErrorText] ∨
      nlToSqlTool "" [("t", "d")] "q" = NlOutcome.reply [schemasErrorText]) ∧
    (∀ m p, nlToSqlTool "key" [] "q" ≠ NlOutcome.callsModel m p) ∧
    nlToSqlTool "key" [("t", "d")] "q"
      = NlOutcome.callsModel "gemini-2.0-flash" (assemblePrompt [("t", "d")] "q") :=
  ⟨((c2_guards "" [("t", "d")] "q").1 (Or.inl rfl)).1,
    ((c2_guards "key" [] "q").1 (Or.inr rfl)).2,
    (c2_guards "key" [("t", "d")] "q").2 (by decide) (by decide)⟩

/-- A failing read of any listed `.sql` file makes the whole schema-reading
loop fail, regardless of how many reads succeeded before it. -/
theorem readSchemaFiles_error (readFile : String → Except String String) :
    ∀ (files : List String) (acc : List (String × String)),
      (∃ f ∈ files, jsEndsWith f ".sql" = true ∧ ∃ e, readFile f = Except.error e) →
      ∃ e, readSchemaFiles readFile files acc = Except.error e := by
  intro files
  induction files with
  | nil =>
    intro acc h
    rcases h with ⟨f, hf, _⟩
    exact absurd hf (List.not_mem_nil f)
  | cons g rest ih =>
    intro acc h
    rcases h with ⟨f, hf, hends, e, herr⟩
    rcases List.mem_cons.mp hf with hfg | hfr
    · subst hfg
      simp only [readSchemaFiles]
      rw [if_pos hends, herr]
      exact ⟨e, rfl⟩
    · simp only [readSchemaFiles]
      by_cases hg : jsEndsWith g ".sql" = true
      · rw [if_pos hg]
        cases hr : readFile g with
        | error e2 => exact ⟨e2, rfl⟩
        | ok c => exact ih _ ⟨f, hfr, hends, e, herr⟩
      · rw [if_neg hg]
        exact ih _ ⟨f, hfr, hends, e, herr⟩

/-- C3 (amended): when the directory listing fails, or the read of any
definition file fails, the Schema Loader returns the empty mapping — the
entries that loaded successfully before the error are discarded, not kept;
the error is caught, so the loader still returns normally and the process
serves the other tools. -/
theorem c3_read_error_discards_all :
    ∀ (files : List String) (readFile : String → Except String String),
      ((∃ f ∈ files, jsEndsWith f ".sql" = true ∧ ∃ e, readFile f = Except.error e) →
        loadDatabaseSchemas (Except.ok files) readFile = []) ∧
      (∀ err, loadDatabaseSchemas (Except.error err) readFile = []) := by
  intro files readFile
  constructor
  · intro h
    rcases readSchemaFiles_error readFile files [] h with ⟨e, he⟩
    simp only [loadDatabaseSchemas]
    rw [he]
  · intro err
    rfl

/-- Counterexample to C3 as stated: a two-file listing where the first read
succeeds and the second fails yields the empty mapping, not the mapping
`[("a", "A")]` of the entries loaded before the error. -/
theorem c3_counterexample :
    loadDatabaseSchemas (Except.ok ["a.sql", "b.sql"])
        (fun f => if f = "a.sql" then Except.ok "A" else Except.error "boom") = [] ∧
    (fun f => if f = "a.sql" then Except.ok "A" else Except.error "boom") "a.sql"
      = Except.ok "A" ∧
    ([] : List (String × String)) ≠ [("a", "A")] :=
  ⟨by decide, rfl, by decide⟩

/-- Witness for the amended C3 at a concrete listing and read function. -/
theorem c3_read_error_discards_all_witness :
    loadDatabaseSchemas (Except.ok ["c.sql", "d.sql"])
        (fun f => if f = "c.sql" then Except.ok "C" else Except.error "io") = [] :=
  (c3_read_error_discards_all ["c.sql", "d.sql"]
      (fun f => if f = "c.sql" then Except.ok "C" else Except.error "io")).1
    ⟨"d.sql", by decide, by decide, "io", rfl⟩

/-- The keys of `recordInsert m k v` are the keys of `m` together with `k`. -/
theorem recordInsert_keys_mem (m : List (String × String)) (k v a : String) :
    a ∈ (recordInsert m k v).map Prod.fst ↔ a ∈ m.map Prod.fst ∨ a = k := by
  unfold recordInsert
  by_cases h : m.any (fun e => e.1 = k)
  · rw [if_pos h]
    have hkeys : (m.map (fun e => if e.1 = k then (k, v) else e)).map Prod.fst
        = m.map Prod.fst := by
      rw [List.map_map]
      apply List.map_congr_left
      intro e _
      by_cases he1 : e.1 = k
      · simp [he1, Function.comp]
      · simp [he1, Function.comp]
    rw [hkeys]
    constructor
    · exact Or.inl
    · rintro (ha | rfl)
      · exact ha
      · rcases List.any_eq_true.mp h with ⟨e, hem, he⟩
        exact List.mem_map.mpr ⟨e, hem, of_decide_eq_true he⟩
  · rw [if_neg h, List.map_append]
    simp [List.mem_append]

/-- When every listed `.sql` file reads successfully, the loop returns
normally and its keys are the starting keys plus the derived table names of
the listed `.sql` files. -/
theorem readSchemaFiles_ok_keys (readFile : String → Except String String) :
    ∀ (files : List String) (acc : List (String × String)),
      (∀ f ∈ files, jsEndsWith f ".sql" = true → ∃ c, readFile f = Except.ok c) →
      ∃ res, readSchemaFiles readFile files acc = Except.ok res ∧
        ∀ a, (a ∈ res.map Prod.fst ↔ a ∈ acc.map Prod.fst ∨
          ∃ f ∈ files, jsEndsWith f ".sql" = true ∧ replaceFirst f ".sql" "" = a) := by
  intro files
  induction files with
  | nil =>
    intro acc _
    exact ⟨acc, rfl, fun a => by simp⟩
  | cons g rest ih =>
    intro acc hreads
    by_cases hg : jsEndsWith g ".sql" = true
    · rcases hreads g (List.mem_cons_self g rest) hg with ⟨c, hc⟩
      rcases ih (recordInsert acc (replaceFirst g ".sql" "") c)
          (fun f hf he => hreads f (List.mem_cons_of_mem g hf) he) with ⟨res, hres, hiff⟩
      refine ⟨res, ?_, ?_⟩
      · simp only [readSchemaFiles]
        rw [if_pos hg, hc]
        exact hres
      · intro a
        rw [hiff a, recordInsert_keys_mem]
        simp only [List.mem_cons]
        constructor
        · rintro ((ha | rfl) | ⟨f, hf, hfe, hfr⟩)
          · exact Or.inl ha
          · exact Or.inr ⟨g, Or.inl rfl, hg, rfl⟩
          · exact Or.inr ⟨f, Or.inr hf, hfe, hfr⟩
        · rintro (ha | ⟨f, hmem, hfe, hfr⟩)
          · exact Or.inl (Or.inl ha)
          · rcases hmem with rfl | hf
            · exact Or.inl (Or.inr hfr.symm)
            · exact Or.inr ⟨f, hf, hfe, hfr⟩
    · rcases ih acc (fun f hf he => hreads f (List.mem_cons_of_mem g hf) he) with
        ⟨res, hres, hiff⟩
      refine ⟨res, ?_, ?_⟩
      · simp only [readSchemaFiles]
        rw [if_neg hg]
        exact hres
      · intro a
        rw [hiff a]
        simp only [List.mem_cons]
        constructor
        · rintro (ha | ⟨f, hf, hfe, hfr⟩)
          · exact Or.inl ha
          · exact Or.inr ⟨f, Or.inr hf, hfe, hfr⟩
        · rintro (ha | ⟨f, hmem, hfe, hfr⟩)
          · exact Or.inl ha
          · rcases hmem with rfl | hf
            · exact absurd hfe hg
            · exact Or.inr ⟨f, hf, hfe, hfr⟩

/-- C4 (amended): when every definition-file read succeeds, the mapping's
keys are exactly the names obtained from the listed `.sql` file names by
removing the first occurrence of `".sql"` (which coincides with removing
the extension whenever `".sql"` occurs only as the suffix). -/
theorem c4_keys :
    ∀ (files : List String) (readFile : String → Except String String),
      (∀ f ∈ files, jsEndsWith f ".sql" = true → ∃ c, readFile f = Except.ok c) →
      ∀ a : String,
        (a ∈ (loadDatabaseSchemas (Except.ok files) readFile).map Prod.fst ↔
          ∃ f ∈ files, jsEndsWith f ".sql" = true ∧ replaceFirst f ".sql" "" = a) := by
  intro files readFile hreads a
  rcases readSchemaFiles_ok_keys readFile files [] hreads with ⟨res, hres, hiff⟩
  simp only [loadDatabaseSchemas]
  rw [hres, hiff a]
  simp

/-- Counterexample to C4 as stated: the file `x.sqly.sql` is keyed by
`replace(".sql", "")`, which removes the first occurrence and yields
`xy.sql`, not the extension-stripped name `x.sqly`. -/
theorem c4_counterexample :
    loadDatabaseSchemas (Except.ok ["x.sqly.sql"]) (fun _ => Except.ok "DDL")
      = [("xy.sql", "DDL")] ∧
    dropExtension "x.sqly.sql" = "x.sqly" ∧
    ("xy.sql" : String) ≠ "x.sqly" := by decide

/-- Witness for the amended C4 at a concrete listing containing a
non-definition file. -/
theorem c4_keys_witness :
    "departments" ∈ (loadDatabaseSchemas (Except.ok ["departments.sql", "README.md"])
      (fun _ => Except.ok "D")).map Prod.fst :=
  (c4_keys ["departments.sql", "README.md"] (fun _ => Except.ok "D")
      (fun f _ _ => ⟨"D", rfl⟩) "departments").mpr
    ⟨"departments.sql", by decide, by decide, by decide⟩

/-- The six unit pairs the conversion table supports. -/
def supportedPairs : List (String × String) :=
  [("celsius", "fahrenheit"), ("fahrenheit", "celsius"), ("kilometers", "miles"),
    ("miles", "kilometers"), ("kilograms", "pounds"), ("pounds", "kilograms")]

/-- The conversion table is populated exactly at the six supported pairs. -/
theorem convTable_isSome_iff :
    ∀ f t, (convTable f t).isSome = true ↔ (f, t) ∈ supportedPairs := by
  intro f t
  constructor
  · intro h
    unfold convTable at h
    split at h
    all_goals try split at h
    all_goals simp_all [supportedPairs]
  · intro hmem
    simp only [supportedPairs, List.mem_cons, List.not_mem_nil, or_false,
      Prod.mk.injEq] at hmem
    rcases hmem with ⟨rfl, rfl⟩ | ⟨rfl, rfl⟩ | ⟨rfl, rfl⟩ | ⟨rfl, rfl⟩ | ⟨rfl, rfl⟩ |
      ⟨rfl, rfl⟩ <;> rfl

/-- Counterexample to C5 as stated: `("celsius", "toString")` is not one of
the six supported pairs, yet the truthiness guard passes through the
inherited `Object.prototype.toString` of the celsius row, the call returns
`"[object Object]"`, and `Number(...)` coerces it to NaN — the handler
replies `5 celsius = NaN toString`, not the unsupported-pair error. -/
theorem c5_counterexample :
    convertTool (qofInt 5) "celsius" "toString"
      = ConvertOutcome.content ["5 celsius = NaN toString"] ∧
    ("celsius", "toString") ∉ supportedPairs ∧
    convertTool (qofInt 5) "celsius" "toString"
      ≠ ConvertOutcome.content
          ["Error: Conversion from celsius to toString is not supported."] := by decide

/-- C5 (amended): on a supported pair the `convert` tool returns the input,
the two units and the formula-computed result formatted by `toFixed(4)` in
the fixed sentence shape; the supported pairs are exactly the six of the
table; any other pair yields the text error naming both units provided
neither unit string names an `Object.prototype` property (otherwise the
prototype-chain lookup satisfies the guard and produces a non-error or
caught-error result instead); and the two concrete examples of the
specification hold. -/
theorem c5_convert :
    (∀ (value : JsNumber) (fromUnit toUnit : String) (fn : JsNumber → JsNumber),
        convTable fromUnit toUnit = some fn →
          convertTool value fromUnit toUnit
            = ConvertOutcome.content
                [jsNumToString value ++ " " ++ fromUnit ++ " = " ++
                  toFixed4 (fn value) ++ " " ++ toUnit]) ∧
    (∀ f t, (convTable f t).isSome = true ↔ (f, t) ∈ supportedPairs) ∧
    (∀ (value : JsNumber) (fromUnit toUnit : String),
        (fromUnit, toUnit) ∉ supportedPairs →
        fromUnit ∉ objectProtoKeys →
        toUnit ∉ objectProtoKeys →
          convertTool value fromUnit toUnit
            = ConvertOutcome.content
                ["Error: Conversion from " ++ fromUnit ++ " to " ++ toUnit ++
                  " is not supported."]) ∧
    convertTool (qofInt 0) "celsius" "fahrenheit"
      = ConvertOutcome.content ["0 celsius = 32.0000 fahrenheit"] ∧
    convertTool (qofInt 10) "celsius" "kelvin"
      = ConvertOutcome.content ["Error: Conversion from celsius to kelvin is not supported."] := by
  refine ⟨?_, convTable_isSome_iff, ?_, by decide, by decide⟩
  · intro v f t fn h
    unfold convertTool
    rw [h]
  · intro v f t hmem hf ht
    have hnone : convTable f t = none := by
      cases hc : convTable f t with
      | none => rfl
      | some fn => exact absurd ((convTable_isSome_iff f t).mp (by rw [hc]; rfl)) hmem
    unfold convertTool
    rw [hnone]
    by_cases hrow : f ∈ conversionRowKeys
    · rw [if_pos hrow, if_neg ht]
    · rw [if_neg hrow, if_neg hf]

/-- Witness for the amended C5: a supported pair formatted, and an
unsupported prototype-free pair rejected, at concrete inputs. -/
theorem c5_convert_witness :
    convertTool (qofInt 2) "kilometers" "miles"
      = ConvertOutcome.content ["2 kilometers = 1.2427 miles"] ∧
    convertTool (qofInt 3) "miles" "feet"
      = ConvertOutcome.content ["Error: Conversion from miles to feet is not supported."] := by
  constructor
  · have h := c5_convert.1 (qofInt 2) "kilometers" "miles"
      (fun km => qmul km (qmk 621371 1000000)) rfl
    rw [h]
    decide
  · exact c5_convert.2.2.1 (qofInt 3) "miles" "feet" (by decide) (by decide) (by decide)

/-- Counterexample to C10 as stated: the catch branch is reachable.
`convert(5, "celsius", "__proto__")` passes the truthiness guard — the
inherited `__proto__` read yields `Object.prototype`, a truthy non-callable
object — and the attempted call throws a `TypeError`, so the handler
returns the generic `Error during conversion` text (the engine's message),
which is neither the formatted conversion string nor the fixed
unsupported-pair error. -/
theorem c10_counterexample :
    convertTool (qofInt 5) "celsius" "__proto__"
      = ConvertOutcome.content
          ["Error during conversion: conversions[fromUnit][toUnit] is not a function"] ∧
    convertTool (qofInt 5) "celsius" "__proto__"
      ≠ ConvertOutcome.content
          ["Error: Conversion from celsius to __proto__ is not supported."] := by decide

/-- C10 (amended): when neither unit string names an `Object.prototype`
property, a `convert` invocation produces either the formatted conversion
string (when the table holds the pair) or the fixed unsupported-pair error
text, and the `catch` branch is not reached; the branch is reachable only
through prototype-inherited properties, as the counterexample shows. -/
theorem c10_no_catch_outcome :
    ∀ (value : JsNumber) (fromUnit toUnit : String),
      fromUnit ∉ objectProtoKeys →
      toUnit ∉ objectProtoKeys →
      (∃ fn, convTable fromUnit toUnit = some fn ∧
        convertTool value fromUnit toUnit
          = ConvertOutcome.content
              [jsNumToString value ++ " " ++ fromUnit ++ " = " ++
                toFixed4 (fn value) ++ " " ++ toUnit]) ∨
      (convTable fromUnit toUnit = none ∧
        convertTool value fromUnit toUnit
          = ConvertOutcome.content
              ["Error: Conversion from " ++ fromUnit ++ " to " ++ toUnit ++
                " is not supported."]) := by
  intro v f t hf ht
  cases h : convTable f t with
  | some fn => exact Or.inl ⟨fn, rfl, by unfold convertTool; rw [h]⟩
  | none =>
    refine Or.inr ⟨rfl, ?_⟩
    unfold convertTool
    rw [h]
    by_cases hrow : f ∈ conversionRowKeys
    · rw [if_pos hrow, if_neg ht]
    · rw [if_neg hrow, if_neg hf]

/-- Witness for the amended C10 at a concrete prototype-free pair. -/
theorem c10_no_catch_outcome_witness :
    (∃ fn, convTable "pounds" "kilograms" = some fn ∧
      convertTool (qofInt 7) "pounds" "kilograms"
        = ConvertOutcome.content
            [jsNumToString (qofInt 7) ++ " " ++ "pounds" ++ " = " ++
              toFixed4 (fn (qofInt 7)) ++ " " ++ "kilograms"]) ∨
    (convTable "pounds" "kilograms" = none ∧
      convertTool (qofInt 7) "pounds" "kilograms"
        = ConvertOutcome.content
            ["Error: Conversion from pounds to kilograms is not supported."]) :=
  c10_no_catch_outcome (qofInt 7) "pounds" "kilograms" (by decide) (by decide)

/-- `qofInt` has the expected rational value. -/
theorem qofInt_toRat (n : ℤ) : (qofInt n).toRat = (n : ℚ) := by
  simp [qofInt, JsNumber.toRat]

/-- `qmk` has the expected rational value, whatever the sign of the
denominator. -/
theorem qmk_toRat (n d : ℤ) : (qmk n d).toRat = (n : ℚ) / (d : ℚ) := by
  unfold qmk JsNumber.toRat
  split
  · push_cast
    rw [neg_div_neg_eq]
  · rfl

/-- `qadd` realises rational addition on nonzero denominators. -/
theorem qadd_toRat (a b : JsNumber) (ha : a.den ≠ 0) (hb : b.den ≠ 0) :
    (qadd a b).toRat = a.toRat + b.toRat := by
  unfold qadd JsNumber.toRat
  have ha' : (a.den : ℚ) ≠ 0 := Int.cast_ne_zero.mpr ha
  have hb' : (b.den : ℚ) ≠ 0 := Int.cast_ne_zero.mpr hb
  push_cast
  field_simp

/-- `qsub` realises rational subtraction on nonzero denominators. -/
theorem qsub_toRat (a b : JsNumber) (ha : a.den ≠ 0) (hb : b.den ≠ 0) :
    (qsub a b).toRat = a.toRat - b.toRat := by
  unfold qsub JsNumber.toRat
  have ha' : (a.den : ℚ) ≠ 0 := Int.cast_ne_zero.mpr ha
  have hb' : (b.den : ℚ) ≠ 0 := Int.cast_ne_zero.mpr hb
  push_cast
  field_simp
  ring

/-- `qmul` realises rational multiplication on nonzero denominators. -/
theorem qmul_toRat (a b : JsNumber) (ha : a.den ≠ 0) (hb : b.den ≠ 0) :
    (qmul a b).toRat = a.toRat * b.toRat := by
  unfold qmul JsNumber.toRat
  have ha' : (a.den : ℚ) ≠ 0 := Int.cast_ne_zero.mpr ha
  have hb' : (b.den : ℚ) ≠ 0 := Int.cast_ne_zero.mpr hb
  push_cast
  field_simp

/-- `qdiv` realises rational division on nonzero denominators and a nonzero
divisor. -/
theorem qdiv_toRat (a b : JsNumber) (ha : a.den ≠ 0) (hb : b.den ≠ 0)
    (hbn : b.num ≠ 0) : (qdiv a b).toRat = a.toRat / b.toRat := by
  unfold qdiv
  rw [qmk_toRat]
  unfold JsNumber.toRat
  have ha' : (a.den : ℚ) ≠ 0 := Int.cast_ne_zero.mpr ha
  have hb' : (b.den : ℚ) ≠ 0 := Int.cast_ne_zero.mpr hb
  have hbn' : (b.num : ℚ) ≠ 0 := Int.cast_ne_zero.mpr hbn
  push_cast
  field_simp

/-- Integer embeddings are well formed. -/
theorem qofInt_wf (n : ℤ) : (qofInt n).wf := Int.one_pos

/-- `qmk` of a nonzero denominator is well formed. -/
theorem qmk_wf {n d : ℤ} (h : d ≠ 0) : (qmk n d).wf := by
  unfold qmk JsNumber.wf
  split
  · show (0 : ℤ) < -d
    omega
  · show (0 : ℤ) < d
    omega

/-- `qadd` preserves well-formedness. -/
theorem qadd_wf {a b : JsNumber} (ha : a.wf) (hb : b.wf) : (qadd a b).wf := mul_pos ha hb

/-- `qsub` preserves well-formedness. -/
theorem qsub_wf {a b : JsNumber} (ha : a.wf) (hb : b.wf) : (qsub a b).wf := mul_pos ha hb

/-- `qmul` preserves well-formedness. -/
theorem qmul_wf {a b : JsNumber} (ha : a.wf) (hb : b.wf) : (qmul a b).wf := mul_pos ha hb

/-- `qdiv` by a nonzero number preserves well-formedness. -/
theorem qdiv_wf {a b : JsNumber} (ha : a.wf) (hbn : b.num ≠ 0) : (qdiv a b).wf :=
  qmk_wf (mul_ne_zero (ne_of_gt ha) hbn)

/-- C6: every conversion function of the table is strictly monotonic — on
well-formed inputs, a smaller value converts to a smaller result. -/
theorem c6_monotonic :
    ∀ (fromUnit toUnit : String) (fn : JsNumber → JsNumber),
      convTable fromUnit toUnit = some fn →
      ∀ a b : JsNumber, a.wf → b.wf → a.toRat < b.toRat →
        (fn a).toRat < (fn b).toRat := by
  intro f t fn h a b ha hb hab
  have had : a.den ≠ 0 := ne_of_gt ha
  have hbd : b.den ≠ 0 := ne_of_gt hb
  unfold convTable at h
  split at h
  all_goals try split at h
  all_goals first
    | exact Option.noConfusion h
    | skip
  -- celsius → fahrenheit
  case _ =>
    injection h with hbody
    subst hbody
    have key : ∀ x : JsNumber, x.wf →
        (qadd (qdiv (qmul x (qofInt 9)) (qofInt 5)) (qofInt 32)).toRat
          = x.toRat * 9 / 5 + 32 := by
      intro x hx
      have hxd : x.den ≠ 0 := ne_of_gt hx
      have w1 : (qmul x (qofInt 9)).wf := qmul_wf hx (qofInt_wf 9)
      have w2 : (qdiv (qmul x (qofInt 9)) (qofInt 5)).wf := qdiv_wf w1 (by decide)
      rw [qadd_toRat _ _ (ne_of_gt w2) one_ne_zero,
        qdiv_toRat _ _ (ne_of_gt w1) one_ne_zero (by decide),
        qmul_toRat _ _ hxd one_ne_zero, qofInt_toRat, qofInt_toRat, qofInt_toRat]
      push_cast
      ring
    rw [key a ha, key b hb]
    linarith
  -- fahrenheit → celsius
  case _ =>
    injection h with hbody
    subst hbody
    have key : ∀ x : JsNumber, x.wf →
        (qdiv (qmul (qsub x (qofInt 32)) (qofInt 5)) (qofInt 9)).toRat
          = (x.toRat - 32) * 5 / 9 := by
      intro x hx
      have hxd : x.den ≠ 0 := ne_of_gt hx
      have w0 : (qsub x (qofInt 32)).wf := qsub_wf hx (qofInt_wf 32)
      have w1 : (qmul (qsub x (qofInt 32)) (qofInt 5)).wf := qmul_wf w0 (qofInt_wf 5)
      rw [qdiv_toRat _ _ (ne_of_gt w1) one_ne_zero (by decide),
        qmul_toRat _ _ (ne_of_gt w0) one_ne_zero,
        qsub_toRat _ _ hxd one_ne_zero, qofInt_toRat, qofInt_toRat, qofInt_toRat]
      push_cast
      ring
    rw [key a ha, key b hb]
    linarith
  -- kilometers → miles
  case _ =>
    injection h with hbody
    subst hbody
    have key : ∀ x : JsNumber, x.wf →
        (qmul x (qmk 621371 1000000)).toRat = x.toRat * (621371 / 1000000 : ℚ) := by
      intro x hx
      rw [qmul_toRat _ _ (ne_of_gt hx) (by decide), qmk_toRat]
      push_cast
      ring
    rw [key a ha, key b hb]
    have hc : (0 : ℚ) < 621371 / 1000000 := by norm_num
    exact mul_lt_mul_of_pos_right hab hc
  -- miles → kilometers
  case _ =>
    injection h with hbody
    subst hbody
    have key : ∀ x : JsNumber, x.wf →
        (qmul x (qmk 160934 100000)).toRat = x.toRat * (160934 / 100000 : ℚ) := by
      intro x hx
      rw [qmul_toRat _ _ (ne_of_gt hx) (by decide), qmk_toRat]
      push_cast
      ring
    rw [key a ha, key b hb]
    have hc : (0 : ℚ) < 160934 / 100000 := by norm_num
    exact mul_lt_mul_of_pos_right hab hc
  -- kilograms → pounds
  case _ =>
    injection h with hbody
    subst hbody
    have key : ∀ x : JsNumber, x.wf →
        (qmul x (qmk 220462 100000)).toRat = x.toRat * (220462 / 100000 : ℚ) := by
      intro x hx
      rw [qmul_toRat _ _ (ne_of_gt hx) (by decide), qmk_toRat]
      push_cast
      ring
    rw [key a ha, key b hb]
    have hc : (0 : ℚ) < 220462 / 100000 := by norm_num
    exact mul_lt_mul_of_pos_right hab hc
  -- pounds → kilograms
  case _ =>
    injection h with hbody
    subst hbody
    have key : ∀ x : JsNumber, x.wf →
        (qmul x (qmk 453592 1000000)).toRat = x.toRat * (453592 / 1000000 : ℚ) := by
      intro x hx
      rw [qmul_toRat _ _ (ne_of_gt hx) (by decide), qmk_toRat]
      push_cast
      ring
    rw [key a ha, key b hb]
    have hc : (0 : ℚ) < 453592 / 1000000 := by norm_num
    exact mul_lt_mul_of_pos_right hab hc

/-- Witness for C6: the celsius-to-fahrenheit entry at 0 < 1. -/
theorem c6_monotonic_witness :
    ((fun c => qadd (qdiv (qmul c (qofInt 9)) (qofInt 5)) (qofInt 32)) (qofInt 0)).toRat
      < ((fun c => qadd (qdiv (qmul c (qofInt 9)) (qofInt 5)) (qofInt 32)) (qofInt 1)).toRat :=
  c6_monotonic "celsius" "fahrenheit" _ rfl (qofInt 0) (qofInt 1) (qofInt_wf 0) (qofInt_wf 1)
    (by simp [JsNumber.toRat, qofInt])

/-- The character set of the claim: digits, the dot, the four arithmetic
operators and the two parentheses. -/
def claimAllowedChar (c : Char) : Bool :=
  (decide ('0' ≤ c) && decide (c ≤ '9')) || c = '.' || c = '+' || c = '-' || c = '*' ||
    c = '/' || c = '(' || c = ')'

/-- The sanitizer's character class is the claim's character set. -/
theorem allowedChar_eq_claim (c : Char) : allowedChar c = claimAllowedChar c := by
  simp only [allowedChar, claimAllowedChar]
  ac_rfl

/-- C7: `calculate` removes exactly the characters outside
`\x7bdigits, '.', '+', '-', '*', '/', '(', ')'\x7d` and evaluates the remainder
with standard operator precedence, returning the numeric result as text;
`calculate("2+2")` is `Result: 4` and `DROP TABLE x;1+1` sanitizes to
`1+1`. -/
theorem c7_calculate :
    (∀ s : String, (sanitize s).toList = s.toList.filter claimAllowedChar) ∧
    calculate "2+2" = ["Result: 4"] ∧
    sanitize "DROP TABLE x;1+1" = "1+1" ∧
    calculate "2+3*4" = ["Result: 14"] ∧
    calculate "(2+3)*4" = ["Result: 20"] := by
  refine ⟨?_, by decide, by decide, by decide, by decide⟩
  intro s
  have h0 : (sanitize s).toList = s.toList.filter allowedChar := rfl
  rw [h0]
  exact List.filter_congr (fun c _ => allowedChar_eq_claim c)

/-- Counterexample to C8 as stated: `abc` sanitizes to the empty string,
which is not a syntactically valid arithmetic expression, yet `eval("")`
returns `undefined` and the handler replies `Result: undefined`, not a
text error. -/
theorem c8_counterexample :
    isValidArithExpr (sanitize "abc") = false ∧
    calculate "abc" = ["Result: undefined"] ∧
    calculate "abc" ≠ ["Error: Could not evaluate expression \x27abc\x27"] := by decide

/-- C8 (amended): when the sanitized form is nonempty, keeps every `/` in
division position (each `/` directly follows a digit, a dot or a closing
parenthesis — a `/` elsewhere can open a comment or a regular-expression
literal, whose validity follows JavaScript lexical rules beyond the
arithmetic fragment) and is not a syntactically valid arithmetic
expression, `calculate` returns the fixed text error quoting the original
input; when the sanitized form is empty, evaluation succeeds with
`undefined` and `calculate` returns `Result: undefined`, which is not an
error result. -/
theorem c8_invalid_input_errors :
    (∀ s : String, isValidArithExpr (sanitize s) = false → sanitize s ≠ "" →
      slashesAreDivision (sanitize s).toList = true →
      calculate s = ["Error: Could not evaluate expression \x27" ++ s ++ "\x27"]) ∧
    (∀ s : String, sanitize s = "" → calculate s = ["Result: undefined"]) := by
  constructor
  · intro s hval hne _
    have hl : ¬((sanitize s).toList = []) := by
      intro hnil
      apply hne
      have h2 : sanitize s = String.mk ((sanitize s).toList) := rfl
      rw [h2, hnil]
    have hj : jsEvalArith (sanitize s) = none := by
      unfold jsEvalArith
      rw [if_neg hl]
      unfold isValidArithExpr at hval
      cases hlex : lexTokens ((sanitize s).toList.length + 1) (sanitize s).toList with
      | none => rfl
      | some ts =>
        rw [hlex] at hval
        have hval' : (evalTokens ts).isSome = false := hval
        have hnone : evalTokens ts = none := by
          cases hev : evalTokens ts with
          | none => rfl
          | some v =>
            rw [hev] at hval'
            exact absurd hval' (by simp)
        show (match evalTokens ts with
          | some v => some (EvalOut.val v)
          | none => none) = none
        rw [hnone]
    unfold calculate
    rw [hj]
  · intro s hs
    have hl : (sanitize s).toList = [] := by rw [hs]; rfl
    unfold calculate jsEvalArith
    rw [if_pos hl]
    rfl

/-- Witness for the amended C8: a nonempty invalid input errors, and an
input sanitizing to the empty string yields `Result: undefined`. -/
theorem c8_invalid_input_errors_witness :
    calculate "1+" = ["Error: Could not evaluate expression \x271+\x27"] ∧
    calculate ";" = ["Result: undefined"] := by
  constructor
  · have h := c8_invalid_input_errors.1 "1+" (by decide) (by decide) (by decide)
    rw [h]
    decide
  · exact c8_invalid_input_errors.2 ";" (by decide)

/-- Counterexample to C9 as stated: with a format pattern supplied, an
unparsable date does not produce a text error — the handler formats the
Invalid Date's NaN components into the pattern and returns it as a normal
result. -/
theorem c9_counterexample :
    formatDateTool none (some "YYYY-MM-DD") = ["NaN-NaN-NaN"] ∧
    formatDateTool none (some "YYYY-MM-DD")
      ≠ ["Error formatting date: Invalid time value"] := by decide

/-- C9 (amended): for an unparsable date string, `format-date` returns the
fixed text error only when no format pattern is supplied (from
`toISOString` throwing on an Invalid Date); when a pattern is supplied, the
handler returns the pattern with every component token replaced by `NaN`,
as a normal text result. -/
theorem c9_invalid_date :
    formatDateTool none none = ["Error formatting date: Invalid time value"] ∧
    (∀ f : String, formatDateTool none (some f)
        = [jsReplaceAll (jsReplaceAll (jsReplaceAll (jsReplaceAll (jsReplaceAll
            (jsReplaceAll f "YYYY" "NaN") "MM" "NaN") "DD" "NaN") "HH" "NaN")
            "mm" "NaN") "ss" "NaN"]) := by
  refine ⟨by decide, ?_⟩
  intro f
  rfl
